import Mathlib

/-!
Verification of the blog-generation pipeline core: the editorial approval
gate and revision loop (src/nodes/editor.py, src/graph.py) and the research
retrieval subsystem (src/nodes/research.py, src/tools/*).

The text-generation capability, the search provider and the network are
external collaborators; they enter the model as explicit parameters
(parsed review outcomes, probe outcomes, fetch results), exactly at the
boundaries where the source code consumes their output.
-/

namespace Blogging

/-! ## Gate data model (src/nodes/editor.py) -/

/-- Parsed editorial assessment, as extracted from the generation
capability's JSON output (editor.py lines 98-102), or produced by the
mechanical fallback (lines 122-133). -/
structure Review where
  cohesiveness_score : ℚ
  passes_review : Bool
  strengths : List String
  issues : List String
  feedback : String

/-- Content metrics consumed by the gate, as produced by
ContentAnalysisTool (content_analyzer.py): word count, total link count,
h1/h2 heading counts. -/
structure Analysis where
  word_count : Nat
  total_links : Nat
  h1_count : Nat
  h2_count : Nat

/-- editor.py line 54: `min_word_count = int(word_count_target * 0.95)`,
integer truncation of the 95% tolerance threshold. -/
def min_word_count (word_count_target : Nat) : Nat :=
  word_count_target * 95 / 100

/-- editor.py lines 122-127: the four mechanical checks, keyed by name. -/
def mechanical_checks (analysis : Analysis)
    (word_count_target min_links num_sections : Nat) : List (String × Bool) :=
  [("word_count", decide (min_word_count word_count_target ≤ analysis.word_count)),
   ("min_links", decide (min_links ≤ analysis.total_links)),
   ("has_h1", decide (analysis.h1_count = 1)),
   ("has_sections", decide (num_sections ≤ analysis.h2_count))]

/-- editor.py lines 116-133: mechanical-only fallback review built when
the generation capability fails. -/
def mechanical_review (analysis : Analysis)
    (word_count_target min_links num_sections : Nat) : Review :=
  let checks := mechanical_checks analysis word_count_target min_links num_sections
  let passes := checks.all (fun c => c.2)
  let issues := (checks.filter (fun c => !c.2)).map (fun c => c.1 ++ " failed")
  { cohesiveness_score := if passes then 7 else 5
    passes_review := passes
    strengths := if passes then ["Mechanical checks passed"] else []
    issues := issues
    feedback := "LLM evaluation unavailable. Mechanical checks: " ++
      (if issues.isEmpty then "all passed" else String.intercalate ", " issues) }

/-- The partial state update returned by the editor node; only the keys
relevant to the approval decision are modelled.  `none` in an Option field
means the key is absent from the returned update dict. -/
structure GateDecision where
  approval_status : String
  approval_feedback : String
  quality_score : ℚ
  revision_count : Option Nat
  forced_publish_note : Option String
  warnings : Option (List String)

/-- editor.py lines 163-179: the forced-publication disclosure note. -/
def forced_note (max_revisions : Nat) (review : Review) : String :=
  "**Editor\x27s Note (Publication Override):**\n" ++
  ("This article was published after exceeding the maximum revision limit (" ++
    toString max_revisions ++ " revisions).\n" ++
  "The editorial review identified the following issues:\n\n" ++
  "**Cohesiveness Score:** " ++ toString review.cohesiveness_score ++ "/10\n\n" ++
  "**Issues Identified:**\n" ++
  String.intercalate "\n" (review.issues.map (fun issue => "- " ++ issue)) ++ "\n\n" ++
  "**Editorial Feedback:**\n" ++ review.feedback ++ "\n\n" ++
  "Please review and consider further editing in a follow-up post.\n\n---\n\n")

/-- editor.py line 193: the single warning appended on forced publication. -/
def forced_warning (review : Review) : String :=
  "Article published with editorial issues. Score: " ++
    toString review.cohesiveness_score ++ "/10"

/-- editor.py lines 136-229: the decision policy applied to the resolved
review (LLM assessment or mechanical fallback). -/
def editor_decide (review : Review) (revision_count max_revisions : Nat)
    (warnings : List String) : GateDecision :=
  if review.passes_review then
    { approval_status := "approved"
      approval_feedback := ""
      quality_score := review.cohesiveness_score / 10
      revision_count := none
      forced_publish_note := none
      warnings := none }
  else if max_revisions ≤ revision_count then
    { approval_status := "force_publish"
      approval_feedback := review.feedback
      quality_score := review.cohesiveness_score / 10
      revision_count := none
      forced_publish_note := some (forced_note max_revisions review)
      warnings := some (warnings ++ [forced_warning review]) }
  else
    { approval_status := "rejected"
      approval_feedback := review.feedback
      quality_score := review.cohesiveness_score / 10
      revision_count := some (revision_count + 1)
      forced_publish_note := none
      warnings := none }

/-- editor.py lines 34-134: the whole editor node, with the generation
capability's outcome passed in (`none` = the call raised or produced
unparseable output, triggering the mechanical fallback). -/
def editor_node (llm_review : Option Review) (analysis : Analysis)
    (word_count_target min_links num_sections : Nat)
    (revision_count max_revisions : Nat) (warnings : List String) : GateDecision :=
  let review := match llm_review with
    | some r => r
    | none => mechanical_review analysis word_count_target min_links num_sections
  editor_decide review revision_count max_revisions warnings

/-! ## Routing and the revision loop (src/graph.py) -/

/-- The projection of BlogState (state.py) threaded through the gate loop.
Option fields model keys that may be absent from the TypedDict; `topic`,
`errors` and article fields stand for the rest of the state, untouched by
routing. -/
structure BlogState where
  topic : String := ""
  approval_status : Option String := none
  approval_feedback : Option String := none
  quality_score : Option ℚ := none
  revision_count : Option Nat := none
  max_revisions : Option Nat := none
  forced_publish_note : Option String := none
  warnings : List String := []
  errors : List String := []

/-- graph.py lines 10-33: route the workflow after the editor node. -/
def route_editor_decision (state : BlogState) : String :=
  let approval_status := state.approval_status.getD "pending"
  let revision_count := state.revision_count.getD 0
  let max_revisions := state.max_revisions.getD 3
  if approval_status ∈ (["approved", "force_publish"] : List String) then "publisher"
  else if approval_status = "rejected" ∧ revision_count < max_revisions then "writer"
  else "publisher"

/-- LangGraph merge of the editor node's partial update into the state:
every key present in the update overwrites the corresponding state field
(state.py is a plain TypedDict, no reducers). -/
def apply_gate (state : BlogState) (review : Review) : BlogState :=
  let d := editor_decide review (state.revision_count.getD 0)
    (state.max_revisions.getD 3) state.warnings
  { state with
    approval_status := some d.approval_status
    approval_feedback := some d.approval_feedback
    quality_score := some d.quality_score
    revision_count := match d.revision_count with
      | some n => some n
      | none => state.revision_count
    forced_publish_note := match d.forced_publish_note with
      | some n => some n
      | none => state.forced_publish_note
    warnings := d.warnings.getD state.warnings }

/-- The gate/revision cycle of the compiled graph: each element of
`reviews` is the resolved review of one editor invocation; after each gate
the conditional edge `route_editor_decision` either loops back to the
writer (next review) or proceeds to the publisher (stop).  The intervening
writer/formatter/seo nodes never write the approval fields, so they are
identities on this projection. -/
def run_gate_loop (state : BlogState) : List Review → BlogState
  | [] => state
  | review :: rest =>
    let state1 := apply_gate state review
    if route_editor_decision state1 = "writer" then run_gate_loop state1 rest
    else state1

/-- graph.py lines 113-125: the initial state built by generate_blog_post. -/
def initial_state (topic : String) : BlogState :=
  { topic := topic
    approval_status := some "pending"
    revision_count := some 0
    max_revisions := some 3
    warnings := []
    errors := [] }

/-! ## Link validator (src/tools/link_validator.py) -/

/-- Outcome of the curl HEAD probe, the external-network boundary of
validate_url (link_validator.py lines 40-90): a status code parsed from
curl's output, a curl-level failure (non-zero exit or empty output), a
subprocess timeout, or any other raised exception. -/
inductive ProbeOutcome where
  | success (status_code : Nat)
  | curl_failed
  | timed_out
  | raised (msg : String)

/-- link_validator.py lines 16-90: the validation result dictionary. -/
structure ValidationResult where
  url : String
  is_valid : Bool
  status_code : Option Nat
  error : Option String

/-- link_validator.py lines 40-90: classify the probe outcome; 2xx/3xx
are valid, everything else is invalid with a populated error. -/
def validate_url (url : String) (outcome : ProbeOutcome) : ValidationResult :=
  match outcome with
  | .success status_code =>
    let is_valid := decide (200 ≤ status_code ∧ status_code < 400)
    { url := url
      is_valid := is_valid
      status_code := some status_code
      error := if is_valid then none else some ("HTTP " ++ toString status_code) }
  | .curl_failed =>
    { url := url, is_valid := false, status_code := none,
      error := some "Connection failed or timeout" }
  | .timed_out =>
    { url := url, is_valid := false, status_code := none, error := some "Timeout" }
  | .raised msg =>
    { url := url, is_valid := false, status_code := none, error := some msg }

/-- link_validator.py lines 92-132: validate a list sequentially, keeping
the valid URLs in original order together with all results. -/
def validate_urls (probe : String → ProbeOutcome) (urls : List String) :
    List String × List ValidationResult :=
  (urls.filter (fun url => (validate_url url (probe url)).is_valid),
   urls.map (fun url => validate_url url (probe url)))

/-! ## URL extraction (research.py lines 187-211, url_fetcher.py lines 221-242)

Both functions scan the text for maximal matches of the regular
expression scheme `https?://` followed by one or more characters outside
a stop set, then de-duplicate preserving first-occurrence order.  The
research-node variant stops at whitespace, the closing bracket characters
and the double quote; the url-fetcher variant additionally stops at the
single quote and the comma. -/

def is_url_stop (c : Char) : Bool :=
  c.isWhitespace || c = ')' || c = ']' || c = '"'

def is_instruction_url_stop (c : Char) : Bool :=
  is_url_stop c || c = Char.ofNat 39 || c = ','

/-- Consume the maximal run of non-stop characters (the `+` part of the
pattern), returning it with the remainder of the text. -/
def take_url_chars (stop : Char → Bool) : List Char → List Char × List Char
  | [] => ([], [])
  | c :: cs =>
    if stop c then ([], c :: cs)
    else
      let p := take_url_chars stop cs
      (c :: p.1, p.2)

/-- Match `https://` or `http://` at the head of the text. -/
def url_scheme_at (cs : List Char) : Option (List Char × List Char) :=
  if "https://".toList.isPrefixOf cs then some ("https://".toList, cs.drop 8)
  else if "http://".toList.isPrefixOf cs then some ("http://".toList, cs.drop 7)
  else none

/-- Try to match one URL at the current position: a scheme followed by at
least one non-stop character. -/
def try_url_at (stop : Char → Bool) (cs : List Char) : Option (String × List Char) :=
  match url_scheme_at cs with
  | none => none
  | some (scheme, rest) =>
    let p := take_url_chars stop rest
    if p.1.isEmpty then none
    else some (String.mk (scheme ++ p.1), p.2)

/-- Left-to-right non-overlapping scan, as re.findall does; the fuel is
the text length, an upper bound on the number of scan steps. -/
def scan_urls (stop : Char → Bool) : Nat → List Char → List String
  | 0, _ => []
  | _, [] => []
  | fuel + 1, c :: cs =>
    match try_url_at stop (c :: cs) with
    | some (url, remaining) => url :: scan_urls stop fuel remaining
    | none => scan_urls stop fuel cs

def find_urls (stop : Char → Bool) (text : String) : List String :=
  scan_urls stop text.toList.length text.toList

/-- De-duplicate preserving first-occurrence order (the seen-set loop in
both extractors). -/
def dedup_preserving_order (urls : List String) : List String :=
  urls.foldl (fun acc url => if url ∈ acc then acc else acc ++ [url]) []

/-- research.py lines 187-211. -/
def extract_sources_from_text (text : String) : List String :=
  dedup_preserving_order (find_urls is_url_stop text)

/-- url_fetcher.py lines 221-242. -/
def extract_urls_from_text (text : String) : List String :=
  dedup_preserving_order (find_urls is_instruction_url_stop text)

/-! ## Research node (src/nodes/research.py) -/

/-- A fetched source as consumed by the research node: the url and the
extracted content (empty content = fetch failed, "skip this source"). -/
structure FetchedSource where
  url : String
  content : String
deriving DecidableEq

/-- The research node's partial state update (the claim-relevant keys). -/
structure ResearchUpdate where
  research_summary : String
  research_sources : List String

/-- research.py lines 57 and 157/383: escape curly braces so downstream
prompt templates do not treat them as substitution variables. -/
def escape_braces (s : String) : String :=
  (s.replace "\x7b" "\x7b\x7b").replace "\x7d" "\x7d\x7d"

/-- research.py lines 124-142: assemble the combined research text from
priority-source content, the research plan and the raw search results,
joined with newlines. -/
def standard_research_output (fetched_content : List FetchedSource)
    (research_plan : String) (search_results : List String) : String :=
  let parts : List String :=
    (if fetched_content.isEmpty then [] else
      ["=== PRIORITY SOURCES FROM INSTRUCTIONS ===\n"] ++
      fetched_content.enum.flatMap (fun p =>
        ["\n--- Source " ++ toString (p.1 + 1) ++ ": " ++ p.2.url ++ " ---\n",
         p.2.content, "\n"])) ++
    ["\n=== RESEARCH PLAN ===\n", research_plan] ++
    (if search_results.isEmpty then [] else
      ["\n\n=== SUPPLEMENTARY WEB SEARCH RESULTS ===\n",
       String.intercalate "\n" search_results])
  String.intercalate "\n" parts

/-- research.py lines 144-175: extract every URL from the combined text,
validate all of them, and return only the validated subset as
research_sources (the summary is the brace-escaped combined text). -/
def standard_research (probe : String → ProbeOutcome)
    (fetched_content : List FetchedSource) (research_plan : String)
    (search_results : List String) : ResearchUpdate :=
  let research_output :=
    standard_research_output fetched_content research_plan search_results
  let all_sources := extract_sources_from_text research_output
  let valid_sources := (validate_urls probe all_sources).1
  { research_summary := escape_braces research_output
    research_sources := valid_sources }

/-- The two deep-research caps (Config.DEEP_RESEARCH_URLS_PER_QUERY and
Config.DEEP_RESEARCH_MAX_URLS_TOTAL, read by research.py lines 298-337). -/
structure DeepConfig where
  urls_per_query : Nat
  max_urls_total : Nat

/-- research.py lines 254-272: validate the URLs found in the
instructions and fetch every valid one whose fetch yields non-empty
content.  There is no cap check in this loop. -/
def priority_fetch (probe : String → ProbeOutcome) (fetch : String → String)
    (instructions : String) : List FetchedSource :=
  let instruction_urls := extract_urls_from_text instructions
  let valid_instruction_urls := (validate_urls probe instruction_urls).1
  valid_instruction_urls.foldl
    (fun acc url => if fetch url ≠ "" then acc ++ [⟨url, fetch url⟩] else acc) []

/-- research.py lines 333-345: fetch the validated URLs of one query,
breaking out as soon as the running total reaches the global cap. -/
def fetch_validated (max_urls_total : Nat) (fetch : String → String) :
    List String → List FetchedSource → List FetchedSource
  | [], acc => acc
  | url :: rest, acc =>
    if max_urls_total ≤ acc.length then acc
    else if fetch url ≠ "" then
      fetch_validated max_urls_total fetch rest (acc ++ [⟨url, fetch url⟩])
    else fetch_validated max_urls_total fetch rest acc

/-- research.py lines 300-349: one iteration of the query loop.  `search`
returns `none` when the search raised (the except/continue branch). -/
def process_query (cfg : DeepConfig) (probe : String → ProbeOutcome)
    (fetch : String → String) (search : String → Option (List String))
    (all_fetched_urls : List FetchedSource) (query : String) : List FetchedSource :=
  match search query with
  | none => all_fetched_urls
  | some results =>
    let candidate_urls := results.take (cfg.urls_per_query * 2)
    let candidate_urls := candidate_urls.filter
      (fun url => !((all_fetched_urls.map (fun f => f.url)).contains url))
    if candidate_urls.isEmpty then all_fetched_urls
    else
      let valid_urls := (validate_urls probe candidate_urls).1
      let urls_to_fetch := valid_urls.take cfg.urls_per_query
      if urls_to_fetch.isEmpty then all_fetched_urls
      else fetch_validated cfg.max_urls_total fetch urls_to_fetch all_fetched_urls

/-- research.py lines 297-349: the sequential query loop, started from
the priority sources fetched in step 1. -/
def deep_fetch (cfg : DeepConfig) (probe : String → ProbeOutcome)
    (fetch : String → String) (search : String → Option (List String))
    (queries : List String) (priority : List FetchedSource) : List FetchedSource :=
  queries.foldl (process_query cfg probe fetch search) priority

/-! ## Query generator (src/tools/query_generator.py) -/

/-- Python str.split on the newline separator (keeps empty segments). -/
def split_lines_aux : List Char → List Char → List String
  | [], acc => [String.mk acc.reverse]
  | c :: cs, acc =>
    if c = '\n' then String.mk acc.reverse :: split_lines_aux cs []
    else split_lines_aux cs (c :: acc)

def split_lines (s : String) : List String := split_lines_aux s.toList []

/-- Python str.strip: drop leading and trailing whitespace. -/
def py_strip (s : String) : String :=
  String.mk
    (((s.toList.dropWhile Char.isWhitespace).reverse.dropWhile Char.isWhitespace).reverse)

/-- query_generator.py lines 73-79: one query per line, stripped, keeping
non-empty lines that do not start with the hash character. -/
def parse_queries (result : String) : List String :=
  ((split_lines (py_strip result)).map py_strip).filter
    (fun q => (q != "") && !("#".toList.isPrefixOf q.toList))

/-- query_generator.py lines 17-80 with the generation capability's text
output passed in: parse and truncate to at most num_queries entries. -/
def generate_queries (llm_output : String) (num_queries : Nat) : List String :=
  (parse_queries llm_output).take num_queries

/-- research.py lines 288-294: the hardcoded fallback query list used
when query generation raises. -/
def fallback_queries (topic : String) : List String :=
  [topic, topic ++ " best practices", topic ++ " use cases",
   topic ++ " latest developments"]

/-- research.py lines 274-295: query-generation step of deep research;
`none` models the except branch. -/
def deep_research_queries (llm_output : Option String) (topic : String)
    (n : Nat) : List String :=
  match llm_output with
  | some result => generate_queries result n
  | none => fallback_queries topic

/-! ## Research synthesizer (src/tools/content_synthesizer.py) -/

structure KeyFact where
  fact : String
  source : String
  confidence : String

structure SourceQuote where
  quote : String
  author : String
  source : String

/-- The structured synthesis parsed from the generation capability's JSON
output (content_synthesizer.py lines 30-36). -/
structure Synthesis where
  summary : String
  key_facts : List KeyFact
  quotes : List SourceQuote
  themes : List String
  sources_by_priority : List String

/-- content_synthesizer.py lines 17-123 with the parsed capability output
passed in (`none` = JSONDecodeError): the parsed synthesis is returned
unmodified; on parse failure a minimal degraded structure is returned. -/
def synthesize_content (llm_output : Option Synthesis)
    (fetched_contents : List FetchedSource) : Synthesis :=
  match llm_output with
  | some synthesis => synthesis
  | none =>
    { summary := "Synthesis failed - see raw research"
      key_facts := []
      quotes := []
      themes := []
      sources_by_priority := fetched_contents.map (fun c => c.url) }

/-- research.py lines 405-441: format the synthesis into the research
summary text, listing at most the first 15 key facts, the first 8 quotes
and the first 15 ranked sources. -/
def format_deep_research_summary (synthesis : Synthesis)
    (_fetched_urls : List FetchedSource) : String :=
  String.join
    (["=== DEEP RESEARCH SUMMARY ===\n", synthesis.summary,
      "\n\n=== KEY FINDINGS (with sources) ===\n"] ++
     (synthesis.key_facts.take 15).flatMap (fun fact =>
       ["\n• " ++ fact.fact, "  [Source: " ++ fact.source ++ "]",
        "  [Confidence: " ++ fact.confidence ++ "]"]) ++
     ["\n\n=== NOTABLE QUOTES ===\n"] ++
     (synthesis.quotes.take 8).flatMap (fun q =>
       ["\n\"" ++ q.quote ++ "\"", "  — " ++ q.author,
        "  [Source: " ++ q.source ++ "]"]) ++
     ["\n\n=== MAIN THEMES ===\n"] ++
     synthesis.themes.map (fun theme => "• " ++ theme ++ "\n") ++
     ["\n\n=== AUTHORITATIVE SOURCES (ranked by priority) ===\n"] ++
     (synthesis.sources_by_priority.take 15).enum.map (fun p =>
       toString (p.1 + 1) ++ ". " ++ p.2 ++ "\n"))

/-- Truncation to the slices actually consumed by
format_deep_research_summary. -/
def cap_for_summary (s : Synthesis) : Synthesis :=
  { s with key_facts := s.key_facts.take 15
           quotes := s.quotes.take 8
           sources_by_priority := s.sources_by_priority.take 15 }

/-! ## Concrete instances used to evaluate the theorems -/

/-- A review that fails, used to instantiate universally quantified
theorems at concrete inputs. -/
def fail_review : Review :=
  { cohesiveness_score := 5
    passes_review := false
    strengths := []
    issues := ["too short"]
    feedback := "expand the article" }

/-- Scenario D configuration: per-query cap 3, total cap 5. -/
def scenario_cfg : DeepConfig := ⟨3, 5⟩

/-- Scenario D search stub: three queries, three candidate URLs each. -/
def scenario_search (q : String) : Option (List String) :=
  if q = "q1" then some ["https://a1", "https://a2", "https://a3"]
  else if q = "q2" then some ["https://b1", "https://b2", "https://b3"]
  else if q = "q3" then some ["https://c1", "https://c2", "https://c3"]
  else none

/-- A probe for which every URL answers HTTP 200. -/
def ok_probe (_ : String) : ProbeOutcome := ProbeOutcome.success 200

/-- A fetch for which every URL yields non-empty content. -/
def ok_fetch (_ : String) : String := "content"

/-- A synthesis with 16 key facts, more than the claimed cap. -/
def sixteen_facts : Synthesis :=
  { summary := "s"
    key_facts := List.replicate 16 ⟨"f", "https://s", "high"⟩
    quotes := []
    themes := []
    sources_by_priority := [] }

/-! ## Helper lemmas -/

lemma forced_note_ne_empty (m : Nat) (r : Review) : forced_note m r ≠ "" := by
  intro h
  have hlen := congrArg String.length h
  rw [forced_note, String.length_append] at hlen
  have hpos : 0 < ("**Editor\x27s Note (Publication Override):**\n").length := by decide
  have h0 : ("" : String).length = 0 := rfl
  rw [h0] at hlen
  omega

lemma apply_gate_max (s : BlogState) (r : Review) :
    (apply_gate s r).max_revisions = s.max_revisions := rfl

lemma apply_gate_rc (s : BlogState) (r : Review) :
    (apply_gate s r).revision_count = s.revision_count ∨
    ((editor_decide r (s.revision_count.getD 0) (s.max_revisions.getD 3)
        s.warnings).approval_status = "rejected" ∧
      s.revision_count.getD 0 < s.max_revisions.getD 3 ∧
      (apply_gate s r).revision_count = some (s.revision_count.getD 0 + 1)) := by
  by_cases hp : r.passes_review
  · left
    simp [apply_gate, editor_decide, hp]
  · by_cases hge : s.max_revisions.getD 3 ≤ s.revision_count.getD 0
    · left
      simp [apply_gate, editor_decide, hp, hge]
    · right
      refine ⟨?_, by omega, ?_⟩ <;> simp [apply_gate, editor_decide, hp, hge]

lemma run_gate_loop_rc_le (reviews : List Review) :
    ∀ s : BlogState, s.revision_count.getD 0 ≤ s.max_revisions.getD 3 →
      (run_gate_loop s reviews).revision_count.getD 0 ≤
        (run_gate_loop s reviews).max_revisions.getD 3 := by
  induction reviews with
  | nil => exact fun s h => h
  | cons r rest ih =>
    intro s h
    have hstep : (apply_gate s r).revision_count.getD 0 ≤
        (apply_gate s r).max_revisions.getD 3 := by
      rcases apply_gate_rc s r with h1 | ⟨_, hlt, h2⟩
      · rw [apply_gate_max, h1]
        exact h
      · rw [apply_gate_max, h2]
        simpa using hlt
    simp only [run_gate_loop]
    split
    · exact ih _ hstep
    · exact hstep

lemma mem_validate_urls_fst {probe : String → ProbeOutcome} {urls : List String}
    {u : String} (h : u ∈ (validate_urls probe urls).1) :
    u ∈ urls ∧ (validate_url u (probe u)).is_valid = true :=
  List.mem_filter.mp h

lemma fetch_validated_length_le (max_urls_total : Nat) (fetch : String → String) :
    ∀ (urls : List String) (acc : List FetchedSource),
      acc.length ≤ max_urls_total →
      (fetch_validated max_urls_total fetch urls acc).length ≤ max_urls_total
  | [], _, h => h
  | url :: rest, acc, h => by
    simp only [fetch_validated]
    split
    · exact h
    · rename_i hlt
      split
      · refine fetch_validated_length_le max_urls_total fetch rest _ ?_
        simp only [List.length_append, List.length_singleton]
        omega
      · exact fetch_validated_length_le max_urls_total fetch rest acc h

lemma fetch_validated_length_ge (max_urls_total : Nat) (fetch : String → String) :
    ∀ (urls : List String) (acc : List FetchedSource),
      acc.length ≤ (fetch_validated max_urls_total fetch urls acc).length
  | [], _ => le_refl _
  | url :: rest, acc => by
    simp only [fetch_validated]
    split
    · exact le_refl _
    · split
      · refine le_trans ?_ (fetch_validated_length_ge max_urls_total fetch rest _)
        simp
      · exact fetch_validated_length_ge max_urls_total fetch rest acc

lemma fetch_validated_mem (max_urls_total : Nat) (fetch : String → String) :
    ∀ (urls : List String) (acc : List FetchedSource) (src : FetchedSource),
      src ∈ fetch_validated max_urls_total fetch urls acc →
      src ∈ acc ∨ src.url ∈ urls
  | [], _, _, h => Or.inl h
  | url :: rest, acc, src, h => by
    simp only [fetch_validated] at h
    split at h
    · exact Or.inl h
    · split at h
      · rcases fetch_validated_mem max_urls_total fetch rest _ src h with hacc | hurl
        · rcases List.mem_append.mp hacc with hacc | hone
          · exact Or.inl hacc
          · right
            rw [List.mem_singleton] at hone
            rw [hone]
            exact List.mem_cons_self _ _
        · exact Or.inr (List.mem_cons_of_mem _ hurl)
      · rcases fetch_validated_mem max_urls_total fetch rest acc src h with hacc | hurl
        · exact Or.inl hacc
        · exact Or.inr (List.mem_cons_of_mem _ hurl)

lemma process_query_length_le (cfg : DeepConfig) (probe : String → ProbeOutcome)
    (fetch : String → String) (search : String → Option (List String))
    (acc : List FetchedSource) (q : String) (h : acc.length ≤ cfg.max_urls_total) :
    (process_query cfg probe fetch search acc q).length ≤ cfg.max_urls_total := by
  unfold process_query
  cases search q with
  | none => exact h
  | some results =>
    dsimp only
    split
    · exact h
    · split
      · exact h
      · exact fetch_validated_length_le _ _ _ _ h

lemma process_query_length_ge (cfg : DeepConfig) (probe : String → ProbeOutcome)
    (fetch : String → String) (search : String → Option (List String))
    (acc : List FetchedSource) (q : String) :
    acc.length ≤ (process_query cfg probe fetch search acc q).length := by
  unfold process_query
  cases search q with
  | none => exact le_refl _
  | some results =>
    dsimp only
    split
    · exact le_refl _
    · split
      · exact le_refl _
      · exact fetch_validated_length_ge _ _ _ _

lemma process_query_mem (cfg : DeepConfig) (probe : String → ProbeOutcome)
    (fetch : String → String) (search : String → Option (List String))
    (acc : List FetchedSource) (q : String) (src : FetchedSource)
    (h : src ∈ process_query cfg probe fetch search acc q) :
    src ∈ acc ∨ (validate_url src.url (probe src.url)).is_valid = true := by
  unfold process_query at h
  cases hsq : search q with
  | none =>
    rw [hsq] at h
    exact Or.inl h
  | some results =>
    rw [hsq] at h
    dsimp only at h
    split at h
    · exact Or.inl h
    · split at h
      · exact Or.inl h
      · rcases fetch_validated_mem _ _ _ _ _ h with hacc | hurl
        · exact Or.inl hacc
        · right
          exact (mem_validate_urls_fst (List.take_subset _ _ hurl)).2

lemma deep_fetch_length_le (cfg : DeepConfig) (probe : String → ProbeOutcome)
    (fetch : String → String) (search : String → Option (List String)) :
    ∀ (queries : List String) (priority : List FetchedSource),
      priority.length ≤ cfg.max_urls_total →
      (deep_fetch cfg probe fetch search queries priority).length ≤ cfg.max_urls_total
  | [], _, h => h
  | q :: qs, priority, h =>
    deep_fetch_length_le cfg probe fetch search qs _
      (process_query_length_le cfg probe fetch search priority q h)

lemma deep_fetch_length_ge (cfg : DeepConfig) (probe : String → ProbeOutcome)
    (fetch : String → String) (search : String → Option (List String)) :
    ∀ (queries : List String) (priority : List FetchedSource),
      priority.length ≤ (deep_fetch cfg probe fetch search queries priority).length
  | [], _ => le_refl _
  | q :: qs, priority =>
    le_trans (process_query_length_ge cfg probe fetch search priority q)
      (deep_fetch_length_ge cfg probe fetch search qs _)

lemma deep_fetch_mem (cfg : DeepConfig) (probe : String → ProbeOutcome)
    (fetch : String → String) (search : String → Option (List String)) :
    ∀ (queries : List String) (priority : List FetchedSource) (src : FetchedSource),
      src ∈ deep_fetch cfg probe fetch search queries priority →
      src ∈ priority ∨ (validate_url src.url (probe src.url)).is_valid = true
  | [], _, _, h => Or.inl h
  | q :: qs, priority, src, h => by
    rcases deep_fetch_mem cfg probe fetch search qs _ src h with h1 | h1
    · exact process_query_mem cfg probe fetch search priority q src h1
    · exact Or.inr h1

lemma priority_foldl_mem (fetch : String → String) :
    ∀ (urls : List String) (acc : List FetchedSource) (src : FetchedSource),
      src ∈ urls.foldl
        (fun acc url => if fetch url ≠ "" then acc ++ [⟨url, fetch url⟩] else acc) acc →
      src ∈ acc ∨ src.url ∈ urls
  | [], _, _, h => Or.inl h
  | url :: rest, acc, src, h => by
    rcases priority_foldl_mem fetch rest _ src h with hacc | hurl
    · dsimp only at hacc
      split at hacc
      · rcases List.mem_append.mp hacc with h2 | hone
        · exact Or.inl h2
        · right
          rw [List.mem_singleton] at hone
          rw [hone]
          exact List.mem_cons_self _ _
      · exact Or.inl hacc
    · exact Or.inr (List.mem_cons_of_mem _ hurl)

lemma priority_fetch_mem (probe : String → ProbeOutcome) (fetch : String → String)
    (instructions : String) (src : FetchedSource)
    (h : src ∈ priority_fetch probe fetch instructions) :
    (validate_url src.url (probe src.url)).is_valid = true := by
  unfold priority_fetch at h
  rcases priority_foldl_mem fetch _ _ _ h with h0 | hmem
  · cases h0
  · exact (mem_validate_urls_fst hmem).2

lemma priority_foldl_length (fetch : String → String) :
    ∀ (urls : List String), (∀ u ∈ urls, fetch u ≠ "") →
      ∀ acc : List FetchedSource,
        (urls.foldl
          (fun acc url => if fetch url ≠ "" then acc ++ [⟨url, fetch url⟩] else acc)
          acc).length = acc.length + urls.length
  | [], _, acc => by simp
  | url :: rest, h, acc => by
    have hu : fetch url ≠ "" := h url (List.mem_cons_self _ _)
    simp only [List.foldl_cons, if_pos hu]
    rw [priority_foldl_length fetch rest (fun u hu2 => h u (List.mem_cons_of_mem _ hu2))]
    simp
    omega

lemma priority_fetch_length (probe : String → ProbeOutcome) (fetch : String → String)
    (instructions : String)
    (hv : ∀ u ∈ extract_urls_from_text instructions,
      (validate_url u (probe u)).is_valid = true)
    (hf : ∀ u ∈ extract_urls_from_text instructions, fetch u ≠ "") :
    (priority_fetch probe fetch instructions).length =
      (extract_urls_from_text instructions).length := by
  unfold priority_fetch
  dsimp only
  have hfilter : (validate_urls probe (extract_urls_from_text instructions)).1 =
      extract_urls_from_text instructions := by
    unfold validate_urls
    exact List.filter_eq_self.mpr (fun u hu => hv u hu)
  rw [hfilter, priority_foldl_length fetch _ hf []]
  simp

/-! ## Claim theorems -/

/-- C1: the gate decision follows the priority order: a passing review
yields "approved" with empty feedback and quality_score = cohesiveness/10;
a failing review with revision_count ≥ max_revisions yields
"force_publish" with a non-empty forced_publish_note and exactly one
warning appended; otherwise "rejected" with the feedback attached and
revision_count incremented by exactly 1. -/
theorem editor_gate_priority (review : Review) (revision_count max_revisions : Nat)
    (warnings : List String) :
    (review.passes_review = true →
      (editor_decide review revision_count max_revisions warnings).approval_status = "approved" ∧
      (editor_decide review revision_count max_revisions warnings).approval_feedback = "" ∧
      (editor_decide review revision_count max_revisions warnings).quality_score =
        review.cohesiveness_score / 10) ∧
    (review.passes_review = false → max_revisions ≤ revision_count →
      (editor_decide review revision_count max_revisions warnings).approval_status = "force_publish" ∧
      (∃ note, (editor_decide review revision_count max_revisions warnings).forced_publish_note =
        some note ∧ note ≠ "") ∧
      (editor_decide review revision_count max_revisions warnings).warnings =
        some (warnings ++ [forced_warning review])) ∧
    (review.passes_review = false → revision_count < max_revisions →
      (editor_decide review revision_count max_revisions warnings).approval_status = "rejected" ∧
      (editor_decide review revision_count max_revisions warnings).approval_feedback =
        review.feedback ∧
      (editor_decide review revision_count max_revisions warnings).revision_count =
        some (revision_count + 1)) := by
  refine ⟨fun hp => ?_, fun hp hge => ?_, fun hp hlt => ?_⟩
  · simp [editor_decide, hp]
  · refine ⟨by simp [editor_decide, hp, hge], ⟨forced_note max_revisions review, ?_,
      forced_note_ne_empty max_revisions review⟩, by simp [editor_decide, hp, hge]⟩
    simp [editor_decide, hp, hge]
  · have hnge : ¬ max_revisions ≤ revision_count := by omega
    exact ⟨by simp [editor_decide, hp, hnge], by simp [editor_decide, hp, hnge],
      by simp [editor_decide, hp, hnge]⟩

theorem editor_gate_priority_witness :
    (editor_decide fail_review 3 3 []).approval_status = "force_publish" ∧
    (∃ note, (editor_decide fail_review 3 3 []).forced_publish_note = some note ∧ note ≠ "") ∧
    (editor_decide fail_review 3 3 []).warnings = some ([] ++ [forced_warning fail_review]) :=
  (editor_gate_priority fail_review 3 3 []).2.1 rfl (by omega)

/-- C2: the routing function is total over all states (absent fields take
the defaults "pending", 0, 3), returns "publisher" on approved or
force_publish, "writer" on rejected with revisions remaining, "publisher"
in every other case, never returns anything outside that pair, and is a
pure function of (approval_status, revision_count, max_revisions) only. -/
theorem route_total_pure (s : BlogState) :
    (route_editor_decision s = "publisher" ∨ route_editor_decision s = "writer") ∧
    ((s.approval_status.getD "pending" = "approved" ∨
        s.approval_status.getD "pending" = "force_publish") →
      route_editor_decision s = "publisher") ∧
    ((s.approval_status.getD "pending" = "rejected" ∧
        s.revision_count.getD 0 < s.max_revisions.getD 3) →
      route_editor_decision s = "writer") ∧
    (¬ (s.approval_status.getD "pending" = "approved" ∨
        s.approval_status.getD "pending" = "force_publish") →
      ¬ (s.approval_status.getD "pending" = "rejected" ∧
        s.revision_count.getD 0 < s.max_revisions.getD 3) →
      route_editor_decision s = "publisher") ∧
    (∀ t : BlogState, s.approval_status = t.approval_status →
      s.revision_count = t.revision_count → s.max_revisions = t.max_revisions →
      route_editor_decision s = route_editor_decision t) := by
  refine ⟨?_, fun h => ?_, fun h => ?_, fun h1 h2 => ?_, fun t ha hr hm => ?_⟩
  · unfold route_editor_decision
    dsimp only
    split
    · exact Or.inl rfl
    · split
      · exact Or.inr rfl
      · exact Or.inl rfl
  · unfold route_editor_decision
    rcases h with h | h <;> simp [h]
  · unfold route_editor_decision
    have hmem : ¬ s.approval_status.getD "pending" ∈ (["approved", "force_publish"] : List String) := by
      simp [h.1]
    simp [hmem, h.1, h.2]
  · unfold route_editor_decision
    have hmem : ¬ s.approval_status.getD "pending" ∈ (["approved", "force_publish"] : List String) := by
      simpa using h1
    simp [hmem, h2]
  · unfold route_editor_decision
    rw [ha, hr, hm]

theorem route_total_pure_witness :
    route_editor_decision
      { approval_status := some "rejected", revision_count := some 1,
        max_revisions := some 3 } = "writer" :=
  (route_total_pure _).2.2.1 ⟨rfl, by decide⟩

/-- C3: in every run started by generate_blog_post (revision_count = 0,
max_revisions = 3), revision_count changes only through the gate's
rejected branch (by exactly 1, and only when revision_count <
max_revisions), it never exceeds max_revisions, and at any moment
approval_status is "force_publish" the bound revision_count ≤
max_revisions + 1 holds. -/
theorem revision_count_bounded (topic : String) (reviews : List Review) :
    ((run_gate_loop (initial_state topic) reviews).revision_count.getD 0 ≤
      (run_gate_loop (initial_state topic) reviews).max_revisions.getD 3) ∧
    ((run_gate_loop (initial_state topic) reviews).approval_status = some "force_publish" →
      (run_gate_loop (initial_state topic) reviews).revision_count.getD 0 ≤
        (run_gate_loop (initial_state topic) reviews).max_revisions.getD 3 + 1) ∧
    (∀ (s : BlogState) (r : Review),
      (apply_gate s r).revision_count = s.revision_count ∨
      ((editor_decide r (s.revision_count.getD 0) (s.max_revisions.getD 3)
          s.warnings).approval_status = "rejected" ∧
        s.revision_count.getD 0 < s.max_revisions.getD 3 ∧
        (apply_gate s r).revision_count = some (s.revision_count.getD 0 + 1))) := by
  have hinv := run_gate_loop_rc_le reviews (initial_state topic) (by simp [initial_state])
  exact ⟨hinv, fun _ => hinv.trans (Nat.le_succ _), fun s r => apply_gate_rc s r⟩

theorem revision_count_bounded_witness :
    (run_gate_loop (initial_state "Docker")
      [fail_review, fail_review, fail_review, fail_review]).revision_count.getD 0 ≤
    (run_gate_loop (initial_state "Docker")
      [fail_review, fail_review, fail_review, fail_review]).max_revisions.getD 3 :=
  (revision_count_bounded "Docker" [fail_review, fail_review, fail_review, fail_review]).1

/-- C4 counterexample: the mechanical fallback passes an article whose
word count is strictly below 95% of the target, because the code
truncates the threshold to an integer (editor.py line 54).  With
word_count_target = 101 the threshold is int(101 * 0.95) = 95, so an
article of 95 words (with 10 links, one h1, 4 h2) passes although
95 < 95.95 = 95% of 101. -/
theorem mechanical_word_floor_cex :
    (mechanical_review ⟨95, 10, 1, 4⟩ 101 10 4).passes_review = true ∧
    (95 : ℚ) < 95 / 100 * 101 := by
  constructor
  · decide
  · norm_num

/-- C4 (amended): the mechanical fallback passes iff word count ≥
⌊0.95 × word_count_target⌋ (integer truncation), link count ≥ the
configured minimum, exactly one top-level heading, and section-heading
count ≥ the configured minimum; the Scenario B instance (3600 words
against target 3500, 12 links, 1 h1, 5 h2, minimums 10/4) passes and the
gate returns "approved" with quality_score 0.7. -/
theorem mechanical_fallback_correct (analysis : Analysis)
    (word_count_target min_links num_sections : Nat) :
    ((mechanical_review analysis word_count_target min_links
        num_sections).passes_review = true ↔
      (min_word_count word_count_target ≤ analysis.word_count ∧
       min_links ≤ analysis.total_links ∧
       analysis.h1_count = 1 ∧
       num_sections ≤ analysis.h2_count)) ∧
    (editor_node none ⟨3600, 12, 1, 5⟩ 3500 10 4 0 3 []).approval_status = "approved" ∧
    (editor_node none ⟨3600, 12, 1, 5⟩ 3500 10 4 0 3 []).quality_score = 7 / 10 := by
  refine ⟨?_, by rfl, by rfl⟩
  simp [mechanical_review, mechanical_checks, List.all, and_assoc]

/-- C5: with no priority URLs, deep research never fetches more than
DEEP_RESEARCH_MAX_URLS_TOTAL sources, because the cap is checked before
every fetch in the per-query loop; and in the Scenario D instance (total
cap 5, 3 queries with 3 valid candidates each, all fetches succeeding)
exactly 5 sources are fetched, not 9. -/
theorem deep_fetch_total_cap (cfg : DeepConfig) (probe : String → ProbeOutcome)
    (fetch : String → String) (search : String → Option (List String))
    (queries : List String) :
    (deep_fetch cfg probe fetch search queries []).length ≤ cfg.max_urls_total ∧
    (deep_fetch scenario_cfg ok_probe ok_fetch scenario_search
      ["q1", "q2", "q3"] []).length = 5 :=
  ⟨deep_fetch_length_le cfg probe fetch search queries [] (by simp), by rfl⟩

/-- C6 counterexample: synthesize_content returns the parsed capability
output unmodified (content_synthesizer.py line 110 returns the json.loads
result as is), so a parseable output with 16 key facts yields a synthesis
with 16 key_facts entries, exceeding the claimed cap of 15. -/
theorem synthesize_no_cap_cex :
    (synthesize_content (some sixteen_facts) []).key_facts.length = 16 ∧
    ¬ (synthesize_content (some sixteen_facts) []).key_facts.length ≤ 15 := by
  constructor
  · rfl
  · intro h
    have : (synthesize_content (some sixteen_facts) []).key_facts.length = 16 := rfl
    omega

/-- C6 (amended): synthesize_content itself applies no cap — it returns
every parseable capability output unchanged — and the 15-fact / 8-quote
caps live in the summary formatter instead: the formatted research
summary depends only on the first 15 key facts, the first 8 quotes and
the first 15 ranked sources, and those slices have length at most 15 and
8 respectively. -/
theorem synthesis_caps_in_formatter (s : Synthesis) (fetched : List FetchedSource) :
    synthesize_content (some s) fetched = s ∧
    format_deep_research_summary s fetched =
      format_deep_research_summary (cap_for_summary s) fetched ∧
    (cap_for_summary s).key_facts.length ≤ 15 ∧
    (cap_for_summary s).quotes.length ≤ 8 := by
  refine ⟨rfl, ?_, ?_, ?_⟩
  · simp [format_deep_research_summary, cap_for_summary, List.take_take]
  · exact List.length_take_le 15 s.key_facts
  · exact List.length_take_le 8 s.quotes

/-- C7 counterexample: generate_queries does not pad: when the capability
output parses to fewer lines than requested, fewer queries are returned
(query_generator.py line 80 only truncates).  One line with n = 4 yields
1 query, not exactly 4. -/
theorem generate_queries_no_padding_cex :
    (generate_queries "docker basics" 4).length = 1 ∧
    (generate_queries "docker basics" 4).length ≠ 4 := by
  constructor
  · decide
  · decide

/-- C7 (amended): generate_queries parses one query per stripped
non-empty line not starting with the hash character and truncates to at
most n entries (returning only the parsed lines when there are fewer
than n, with no padding); the Scenario C stub of 5 lines with n = 4
returns exactly the first 4 lines, which are distinct and non-empty; on
generation failure the caller falls back to the deterministic template
list [topic, topic + " best practices", topic + " use cases", topic +
" latest developments"]. -/
theorem generate_queries_correct (llm_output : String) (num_queries : Nat)
    (topic : String) (n : Nat) :
    (generate_queries llm_output num_queries).length =
      min num_queries (parse_queries llm_output).length ∧
    (∀ q ∈ generate_queries llm_output num_queries, q ∈ parse_queries llm_output) ∧
    generate_queries "alpha\nbeta\ngamma\ndelta\nepsilon" 4 =
      ["alpha", "beta", "gamma", "delta"] ∧
    (["alpha", "beta", "gamma", "delta"] : List String).Nodup ∧
    (∀ q ∈ (["alpha", "beta", "gamma", "delta"] : List String), q ≠ "") ∧
    deep_research_queries none topic n = fallback_queries topic ∧
    fallback_queries topic =
      [topic, topic ++ " best practices", topic ++ " use cases",
       topic ++ " latest developments"] :=
  ⟨List.length_take num_queries (parse_queries llm_output),
   fun q hq => List.take_subset _ _ hq,
   by decide, by decide, by decide, rfl, rfl⟩

theorem generate_queries_correct_witness :
    "alpha" ∈ parse_queries "alpha\nbeta\ngamma\ndelta\nepsilon" :=
  (generate_queries_correct "alpha\nbeta\ngamma\ndelta\nepsilon" 4 "t" 0).2.1
    "alpha" (by decide)

/-- C8: a validation result is valid iff a status code is present and in
[200, 400); every failing result carries a populated error or a status
code, and every valid result has a null error. -/
theorem validate_url_status_iff (url : String) (outcome : ProbeOutcome) :
    ((validate_url url outcome).is_valid = true ↔
      ∃ c, (validate_url url outcome).status_code = some c ∧ 200 ≤ c ∧ c < 400) ∧
    ((validate_url url outcome).is_valid = false →
      (validate_url url outcome).error ≠ none ∨
      ∃ c, (validate_url url outcome).status_code = some c) ∧
    ((validate_url url outcome).is_valid = true →
      (validate_url url outcome).error = none) := by
  cases outcome with
  | success c =>
    by_cases h : 200 ≤ c ∧ c < 400
    · refine ⟨?_, ?_, ?_⟩
      · simp only [validate_url, h]
        exact ⟨fun _ => ⟨c, by simp [h], h.1, h.2⟩, fun _ => by simp [h]⟩
      · intro hfalse
        simp [validate_url, h] at hfalse
      · intro _
        simp [validate_url, h]
    · refine ⟨?_, ?_, ?_⟩
      · constructor
        · intro htrue
          simp [validate_url, h] at htrue
        · rintro ⟨c2, hc2, hge, hlt⟩
          simp only [validate_url] at hc2
          rw [Option.some_inj] at hc2
          exact absurd ⟨hc2 ▸ hge, hc2 ▸ hlt⟩ h
      · intro _
        left
        simp [validate_url, h]
      · intro htrue
        simp [validate_url, h] at htrue
  | curl_failed =>
    refine ⟨?_, fun _ => Or.inl (by simp [validate_url]), fun htrue => by simp [validate_url] at htrue⟩
    constructor
    · intro htrue
      simp [validate_url] at htrue
    · rintro ⟨c, hc, _⟩
      simp [validate_url] at hc
  | timed_out =>
    refine ⟨?_, fun _ => Or.inl (by simp [validate_url]), fun htrue => by simp [validate_url] at htrue⟩
    constructor
    · intro htrue
      simp [validate_url] at htrue
    · rintro ⟨c, hc, _⟩
      simp [validate_url] at hc
  | raised msg =>
    refine ⟨?_, fun _ => Or.inl (by simp [validate_url]), fun htrue => by simp [validate_url] at htrue⟩
    constructor
    · intro htrue
      simp [validate_url] at htrue
    · rintro ⟨c, hc, _⟩
      simp [validate_url] at hc

theorem validate_url_status_iff_witness :
    (validate_url "https://x" (ProbeOutcome.success 404)).error ≠ none ∨
    ∃ c, (validate_url "https://x" (ProbeOutcome.success 404)).status_code = some c :=
  (validate_url_status_iff "https://x" (ProbeOutcome.success 404)).2.1 (by decide)

/-- C9: every URL in research_sources passed link validation: in standard
mode research_sources is exactly the validated subset of the URLs
extracted from the combined research text, and in deep mode every fetched
source's URL (priority or per-query) was taken from a validator-approved
list before fetching. -/
theorem research_sources_validated (probe : String → ProbeOutcome)
    (fetch : String → String) (search : String → Option (List String))
    (cfg : DeepConfig) (fetched_content : List FetchedSource)
    (research_plan : String) (search_results : List String)
    (instructions : String) (queries : List String) :
    (∀ u ∈ (standard_research probe fetched_content research_plan
        search_results).research_sources,
      (validate_url u (probe u)).is_valid = true ∧
      u ∈ extract_sources_from_text
        (standard_research_output fetched_content research_plan search_results)) ∧
    (∀ src ∈ deep_fetch cfg probe fetch search queries
        (priority_fetch probe fetch instructions),
      (validate_url src.url (probe src.url)).is_valid = true) := by
  constructor
  · intro u hu
    have h := mem_validate_urls_fst hu
    exact ⟨h.2, h.1⟩
  · intro src hsrc
    rcases deep_fetch_mem cfg probe fetch search queries _ src hsrc with hprio | hvalid
    · exact priority_fetch_mem probe fetch instructions src hprio
    · exact hvalid

theorem research_sources_validated_witness :
    (validate_url "https://a" (ok_probe "https://a")).is_valid = true ∧
    "https://a" ∈ extract_sources_from_text
      (standard_research_output [] "See https://a" []) :=
  (research_sources_validated ok_probe ok_fetch (fun _ => none) scenario_cfg
    [] "See https://a" [] "" []).1 "https://a" (by decide)

/-- C10: priority URLs from the instructions bypass the total-URL cap:
when every instruction URL validates and fetches non-empty content, the
priority step fetches all of them with no cap check, so whenever the
instructions contain more valid fetchable URLs than
DEEP_RESEARCH_MAX_URLS_TOTAL, the total number of fetched sources
exceeds the cap. -/
theorem priority_urls_bypass_cap (cfg : DeepConfig) (probe : String → ProbeOutcome)
    (fetch : String → String) (search : String → Option (List String))
    (instructions : String) (queries : List String)
    (hv : ∀ u ∈ extract_urls_from_text instructions,
      (validate_url u (probe u)).is_valid = true)
    (hf : ∀ u ∈ extract_urls_from_text instructions, fetch u ≠ "")
    (hcap : cfg.max_urls_total < (extract_urls_from_text instructions).length) :
    (priority_fetch probe fetch instructions).length =
      (extract_urls_from_text instructions).length ∧
    cfg.max_urls_total <
      (deep_fetch cfg probe fetch search queries
        (priority_fetch probe fetch instructions)).length := by
  have hlen := priority_fetch_length probe fetch instructions hv hf
  refine ⟨hlen, lt_of_lt_of_le ?_ (deep_fetch_length_ge cfg probe fetch search queries _)⟩
  rw [hlen]
  exact hcap

theorem priority_urls_bypass_cap_witness :
    scenario_cfg.max_urls_total <
      (deep_fetch scenario_cfg ok_probe ok_fetch (fun _ => none) []
        (priority_fetch ok_probe ok_fetch
          "https://a https://b https://c https://d https://e https://f")).length :=
  (priority_urls_bypass_cap scenario_cfg ok_probe ok_fetch (fun _ => none)
    "https://a https://b https://c https://d https://e https://f" []
    (fun _ _ => rfl) (fun _ _ => (by decide : ("content" : String) ≠ "")) (by decide)).2

end Blogging
